import Mathlib

/-!
Verification of the candidate-document pipeline
(`parse_documents.py`, `interview_prompt.py`, `supabase_insert.py`, `main.py`).

The Python code manipulates JSON-shaped dictionaries (the values returned by
`json.loads` and the literals built in the source).  We embed those values as
`Val` and dictionaries as association lists with Python dict semantics
(`dget` = `d.get`/`d[k]`, `dmem` = `k in d`, `dset` = `d[k] = v`: update in
place if the key exists, else append).  External collaborators are explicit
parameters:

* the completion service plus the `json.loads` of its returned text is a
  function from the request (model, messages, temperature) to a `SvcResult`
  (transport failure, text that is not JSON, JSON that is not an object, or a
  JSON object);
* PDF text extraction is a function from a path to `Except String String`
  (`.error` = the exception `extract_text_from_pdf` raises);
* the Supabase client/insert call is a `hasClient : Bool` (credentials present
  and client construction succeeded) plus a function from the inserted row to
  the insert outcome;
* `datetime.now().isoformat()` is a `now : String` parameter.

Python operations on these values that can raise (`", ".join`, subscript
assignment on a non-dict) are modelled with `Option`/`Except`, and the
`try/except` blocks of the source translate to matches on those results.
-/

/-- A JSON-shaped Python value (JSON numbers are modelled as integers; no
claim depends on numeric content). -/
inductive Val where
  | str (s : String)
  | num (n : Int)
  | bool (b : Bool)
  | null
  | list (xs : List Val)
  | dict (fs : List (String × Val))

/-- A Python dictionary with string keys, as produced by `json.loads` and by
the dict literals in the source. -/
abbrev Dict := List (String × Val)

/-- `d.get(k)` / `d[k]`: value at the key, if present (first occurrence). -/
def dget (d : Dict) (k : String) : Option Val :=
  match d with
  | [] => none
  | (k0, v) :: rest => if k0 = k then some v else dget rest k

/-- `d.get(k, default)`. -/
def dgetD (d : Dict) (k : String) (dflt : Val) : Val :=
  (dget d k).getD dflt

/-- `k in d`. -/
def dmem (k : String) (d : Dict) : Bool :=
  (dget d k).isSome

/-- `d[k] = v`: replace the value in place when the key exists, else append. -/
def dset (d : Dict) (k : String) (v : Val) : Dict :=
  match d with
  | [] => [(k, v)]
  | (k0, v0) :: rest => if k0 = k then (k0, v) :: rest else (k0, v0) :: dset rest k v

/-- Python truthiness of a `Val` (used by `if profile_data.get(...)`). -/
def truthy : Val → Bool
  | .str s => !s.isEmpty
  | .num n => n != 0
  | .bool b => b
  | .null => false
  | .list xs => !xs.isEmpty
  | .dict fs => !fs.isEmpty

/-- A list of `Val`s that are all strings, extracted; `none` when some element
is not a string (the case where `str.join` raises `TypeError`). -/
def strListOf : List Val → Option (List String)
  | [] => some []
  | .str s :: rest => (strListOf rest).map (fun l => s :: l)
  | _ => none

/-- `sep.join(v)` in Python: joins a list of strings; a string joins its
characters; a dict joins its keys; anything else raises `TypeError`
(modelled as `none`). -/
def pyJoin (sep : String) (v : Val) : Option String :=
  match v with
  | .str s => some (String.intercalate sep (s.toList.map (fun c => String.mk [c])))
  | .list xs => (strListOf xs).map (String.intercalate sep)
  | .dict fs => some (String.intercalate sep (fs.map Prod.fst))
  | _ => none

mutual

/-- Python `repr` of a JSON-shaped value (the rendering used by `str` on
containers); the exact text is opaque data inside prompts and never decides a
claim. -/
def pyRepr : Val → String
  | .str s => "\x27" ++ s ++ "\x27"
  | .num n => toString n
  | .bool b => if b then "True" else "False"
  | .null => "None"
  | .list xs => "[" ++ pyReprList xs ++ "]"
  | .dict fs => "\x7b" ++ pyReprFields fs ++ "\x7d"

def pyReprList : List Val → String
  | [] => ""
  | [x] => pyRepr x
  | x :: xs => pyRepr x ++ ", " ++ pyReprList xs

def pyReprFields : List (String × Val) → String
  | [] => ""
  | [(k, v)] => "\x27" ++ k ++ "\x27: " ++ pyRepr v
  | (k, v) :: fs => "\x27" ++ k ++ "\x27: " ++ pyRepr v ++ ", " ++ pyReprFields fs

end

/-- Python `str` of a value, as used by f-string interpolation. -/
def pyStr : Val → String
  | .str s => s
  | v => pyRepr v

/-- Outcome of one completion call followed by `json.loads` on the returned
text: the call raised; the text was not valid JSON (`json.JSONDecodeError`);
the text was JSON but not an object; or a JSON object. -/
inductive SvcResult where
  | fail (msg : String)
  | okMalformed
  | okNonDict
  | okDict (d : Dict)

/-- The completion service: model name, role-tagged messages, sampling
temperature. -/
abbrev Svc := String → List (String × String) → Rat → SvcResult

/-! ## `parse_documents.py` -/

/-- The fixed system message of `extract_candidate_profile`
(`parse_documents.py` line 87). -/
def extraction_system_msg : String :=
  "You are a helpful data extractor for an AI recruiter. Analyze CV and DICE assessment data to extract structured candidate information. For DICE assessments, analyze the pattern of responses to determine work style preferences. Always return valid JSON only."

/-- The user prompt of `extract_candidate_profile` (`parse_documents.py`
lines 52-81; literal braces written as escapes). -/
def extraction_prompt (cv_text dice_text : String) : String :=
  "\nCV TEXT:\n" ++ cv_text ++ "\n\nDICE TEXT:\n" ++ dice_text ++
  "\n\n---\n\nPlease extract the following structured data in JSON format:\n\n\x7b\n  \"name\": \"<name>\",\n  \"email\": \"<email>\",\n  \"skills\": [\"...\", \"...\"],\n  \"cad_tools\": [\"SolidWorks\", \"Fusion 360\"],\n  \"projects\": [\"...\", \"...\"],\n  \"personality_type\": \"<DICE summary>\",\n  \"tone_profile\": \"<interview tone>\"\n\x7d\n\nIMPORTANT GUIDELINES:\n- Return ONLY valid JSON, no additional text\n- For skills: include technical tools, software, domains mentioned\n- For cad_tools: specifically CAD/CAM software (SolidWorks, Fusion 360, AutoCAD, etc.)\n- For projects: list actual project names/titles (max 3)\n- For personality_type: analyze DICE responses to determine work style (e.g., \"High C (Creative), Mid D (Drive)\", \"Balanced DICE profile\", \"Detail-oriented and systematic\")\n- For tone_profile: describe interview approach based on personality (e.g., \"warm and curious\", \"structured and mentor-like\", \"enthusiastic and collaborative\")\n- If information is not found, use empty strings for text fields and empty arrays for lists\n"

/-- The messages of the profile-extraction completion request. -/
def extraction_messages (cv_text dice_text : String) : List (String × String) :=
  [("system", extraction_system_msg), ("user", extraction_prompt cv_text dice_text)]

/-- `_get_default_profile` (`parse_documents.py` lines 109-119). -/
def get_default_profile : Dict :=
  [("name", .str ""),
   ("email", .str ""),
   ("skills", .list []),
   ("cad_tools", .list []),
   ("projects", .list []),
   ("personality_type", .str ""),
   ("tone_profile", .str "")]

/-- `extract_candidate_profile` (`parse_documents.py` lines 33-107).  The
`api_key` argument only selects the client and is omitted.  A transport
failure or a `json.JSONDecodeError` returns the default profile; a JSON
result that is not an object makes the success-logging line
(`parsed_data.get(...)`) raise `AttributeError`, which the outer `except`
turns into the default profile as well; a JSON object is returned as-is. -/
def extract_candidate_profile (svc : Svc) (cv_text dice_text : String) : Dict :=
  match svc "gpt-4" (extraction_messages cv_text dice_text) (1/10) with
  | .fail _ => get_default_profile
  | .okMalformed => get_default_profile
  | .okNonDict => get_default_profile
  | .okDict d => d

/-- The seven required profile fields (`parse_documents.py` line 131). -/
def profile_required_fields : List String :=
  ["name", "email", "skills", "cad_tools", "projects", "personality_type", "tone_profile"]

/-- `validate_profile` (`parse_documents.py` lines 121-138): the source loop
returns `False` at the first missing field and `True` otherwise, i.e. all
required fields are present. -/
def validate_profile (profile : Dict) : Bool :=
  profile_required_fields.all (fun f => dmem f profile)

/-! ## `interview_prompt.py` -/

/-- The system message of `generate_interview_chat` (`interview_prompt.py`
lines 68-112), an f-string of the tone profile and candidate name; literal
braces and apostrophes written as escapes. -/
def interview_system_msg (tone_profile name : String) : String :=
  "\nYou are Anu, an AI recruiter with a warm, mentor-like tone. You are smart, emotionally intelligent, and deeply curious about people. Your tone is: " ++ tone_profile ++
  "\n\nYour goal is to interview a candidate conversationally. Ask one question at a time. React to their answer with genuine interest and encouragement. Then ask them to share a story, example, or what they learned from that experience.\n\nBuild a memory of each exchange as a 1-line takeaway about their personality, work style, or values. At the end, use the answers + memories to write a 3-line summary of the candidate\x27s strengths, mindset, and culture fit.\n\nKey questions to cover (but ask them naturally in conversation):\n- Where are they based?\n- Education/graduation status\n- Tell me about their projects (ask for specific stories)\n- CAD tools they enjoy using\n- Preference for hands-on vs design-only work\n- Openness to relocating to Umargam\n- Commitment to 2-3 years\n- Salary expectations\n- Interest in factory visit\n\nUse emojis occasionally to keep it warm and engaging. Be genuinely curious about their experiences and what drives them.\n\nRespond in JSON format:\n\x7b\n  \"chat_log\": [\n    \x7b\"role\": \"Anu\", \"message\": \"Hi " ++ name ++ "! So happy to chat with you today! Where are you currently based?\"\x7d,\n    \x7b\"role\": \"Candidate\", \"message\": \"I\x27m in Bengaluru.\"\x7d,\n    \x7b\"role\": \"Anu\", \"message\": \"Love that city! 💫 What do you enjoy most about living there?\"\x7d\n  ],\n  \"answers\": \x7b\n    \"location\": \"Bengaluru\",\n    \"education_status\": \"Recently graduated\",\n    \"internship_work\": \"Worked on drone projects\",\n    \"cad_tools\": \"SolidWorks, AutoCAD\",\n    \"role_preference\": \"Hands-on work\",\n    \"relocation\": \"Open to relocating\",\n    \"commitment\": \"Willing for 2-3 years\",\n    \"salary_expectation\": \"Within budget\",\n    \"factory_visit_interest\": \"Very interested\"\n  \x7d,\n  \"memories\": [\n    \"Kishore enjoys hands-on roles and feels most fulfilled when seeing his designs in action.\",\n    \"He took initiative during his internship to integrate ML models without being asked.\"\n  ],\n  \"summary_notes\": \"Kishore is a thoughtful, technically sharp candidate who thrives in hands-on environments. He takes initiative and has strong interdisciplinary thinking. Great culture fit for small team learning environments.\"\n\x7d\n"

/-- The user message of `generate_interview_chat` (`interview_prompt.py`
lines 114-124), with the three comma-joined sequences already rendered. -/
def interview_user_msg (name personality_type skills_j cad_tools_j projects_j : String) : String :=
  "\nHere\x27s the candidate profile:\n\nName: " ++ name ++
  "\nPersonality Type: " ++ personality_type ++
  "\nSkills: " ++ skills_j ++
  "\nCAD Tools: " ++ cad_tools_j ++
  "\nProjects: " ++ projects_j ++
  "\n\nBegin the interview now. Make it feel like a natural conversation between two people getting to know each other.\n"

/-- The messages of the interview-synthesis completion request, as built by
`generate_interview_chat` from the profile and the three joined sequences. -/
def interview_messages (profile_data : Dict) (skills_j cad_tools_j projects_j : String) : List (String × String) :=
  [("system",
    interview_system_msg (pyStr (dgetD profile_data "tone_profile" (.str "warm and curious")))
      (pyStr (dgetD profile_data "name" (.str "Candidate")))),
   ("user",
    interview_user_msg (pyStr (dgetD profile_data "name" (.str "Candidate")))
      (pyStr (dgetD profile_data "personality_type" (.str "Unknown")))
      skills_j cad_tools_j projects_j)]

/-- `_get_default_interview_data` (`interview_prompt.py` lines 168-198). -/
def get_default_interview_data (profile_data : Dict) (now : String) : Dict :=
  [("chat_log", .list
      [.dict [("role", .str "Anu"),
              ("message", .str ("Hi " ++ pyStr (dgetD profile_data "name" (.str "Candidate")) ++ "! I\x27m Anu from Kinara. So excited to chat with you today! ✨"))],
       .dict [("role", .str "Candidate"),
              ("message", .str "Hi Anu! Nice to meet you too.")]]),
   ("answers", .dict
      [("location", .str ""),
       ("education_status", .str ""),
       ("internship_work", .str ""),
       ("cad_tools", .str ""),
       ("role_preference", .str ""),
       ("relocation", .str ""),
       ("commitment", .str ""),
       ("salary_expectation", .str ""),
       ("factory_visit_interest", .str "")]),
   ("memories", .list
      [.str ("Interview generation failed for " ++ pyStr (dgetD profile_data "name" (.str "Candidate")) ++ ". Manual review required.")]),
   ("summary_notes",
    .str ("Interview generation failed for " ++ pyStr (dgetD profile_data "name" (.str "Candidate")) ++ ". Manual review required.")),
   ("metadata", .dict
      [("generated_at", .str now),
       ("candidate_name", dgetD profile_data "name" (.str "Candidate")),
       ("error", .str "Interview generation failed"),
       ("version", .str "Anu v2 - Fallback")])]

/-- The metadata attached to a parsed interview (`interview_prompt.py`
lines 142-148). -/
def interview_metadata (profile_data : Dict) (now : String) : Val :=
  .dict
    [("generated_at", .str now),
     ("candidate_name", dgetD profile_data "name" (.str "Candidate")),
     ("personality_type", dgetD profile_data "personality_type" (.str "Unknown")),
     ("tone_profile", dgetD profile_data "tone_profile" (.str "warm and curious")),
     ("version", .str "Anu v2 - Conversational Mentor")]

/-- `generate_interview_chat` (`interview_prompt.py` lines 50-166).  The
`user_msg` f-string joins the three sequences before the `try` block, so a
non-string element there raises `TypeError` out of the function (`.error`).
Inside the `try`: a transport failure or `json.JSONDecodeError` returns the
default record; a JSON non-object makes `parsed_data['metadata'] = ...` raise
`TypeError`, caught by the outer `except`, returning the default record too; a
JSON object gets metadata attached and the `memories`/`answers`/
`summary_notes` keys backfilled when absent (`chat_log` is not backfilled). -/
def generate_interview_chat (svc : Svc) (profile_data : Dict) (now : String) : Except String Dict :=
  match pyJoin ", " (dgetD profile_data "skills" (.list [])),
        pyJoin ", " (dgetD profile_data "cad_tools" (.list [])),
        pyJoin ", " (dgetD profile_data "projects" (.list [])) with
  | some sj, some cj, some pj =>
    .ok (match svc "gpt-4" (interview_messages profile_data sj cj pj) (4/5) with
      | .fail _ => get_default_interview_data profile_data now
      | .okMalformed => get_default_interview_data profile_data now
      | .okNonDict => get_default_interview_data profile_data now
      | .okDict d =>
        let d1 := dset d "metadata" (interview_metadata profile_data now)
        let d2 := if dmem "memories" d1 then d1 else dset d1 "memories" (.list [])
        let d3 := if dmem "answers" d2 then d2 else dset d2 "answers" (.dict [])
        let d4 := if dmem "summary_notes" d3 then d3
                  else dset d3 "summary_notes"
                    (.str ("Interview completed for " ++ pyStr (dgetD profile_data "name" (.str "Candidate")) ++ ". Manual review recommended."))
        d4)
  | _, _, _ => .error "TypeError: sequence item: expected str instance"

/-- The four required interview fields (`interview_prompt.py` line 202). -/
def interview_required_fields : List String :=
  ["chat_log", "answers", "memories", "summary_notes"]

/-- `validate_interview_data` (`interview_prompt.py` lines 200-208). -/
def validate_interview_data (interview_data : Dict) : Bool :=
  interview_required_fields.all (fun f => dmem f interview_data)

/-! ## `supabase_insert.py` -/

/-- Outcome of the `supabase.table("anu_interviews").insert(data).execute()`
call: the call raised, or it returned and `result.data` is the given value. -/
abbrev Sink := Dict → Except String Val

/-- The row built by `insert_candidate_to_supabase` (`supabase_insert.py`
lines 64-82): the six base fields, then each optional field only when its
source value is truthy.  `none` when `", ".join` on the skills raises
`TypeError` (caught by the function, which then returns `None`). -/
def build_insert_data (profile_data chat_data : Dict) (cv_url dice_url : String) : Option Dict :=
  match pyJoin ", " (dgetD profile_data "skills" (.list [])) with
  | none => none
  | some skills_j =>
    let base : Dict :=
      [("name", dgetD profile_data "name" (.str "")),
       ("email", dgetD profile_data "email" (.str "")),
       ("cv_url", .str cv_url),
       ("dice_url", .str dice_url),
       ("skills", .str skills_j),
       ("status", .str "pending")]
    let d1 := if truthy (dgetD profile_data "personality_type" .null)
              then dset base "personality_type" (dgetD profile_data "personality_type" (.str ""))
              else base
    let d2 := if truthy (dgetD profile_data "tone_profile" .null)
              then dset d1 "tone_profile" (dgetD profile_data "tone_profile" (.str ""))
              else d1
    let d3 := if truthy (dgetD chat_data "summary_notes" .null)
              then dset d2 "summary_notes" (dgetD chat_data "summary_notes" (.str ""))
              else d2
    let d4 := if truthy (dgetD chat_data "memories" .null)
              then dset d3 "memories" (dgetD chat_data "memories" (.list []))
              else d3
    some d4

/-- `insert_candidate_to_supabase` (`supabase_insert.py` lines 45-110).
`hasClient` is whether `get_supabase_client()` returned a client (credentials
present and construction succeeded); it is checked before the row is built.
Every exception is caught and becomes `None`; the code after the inner
`try/except` (lines 100-106) is unreachable because the inner `try` already
returns `result.data`. -/
def insert_candidate_to_supabase (hasClient : Bool) (sink : Sink)
    (profile_data chat_data : Dict) (cv_url dice_url : String) : Option Val :=
  if hasClient then
    match build_insert_data profile_data chat_data cv_url dice_url with
    | none => none
    | some data =>
      match sink data with
      | .error _ => none
      | .ok v => some v
  else none

/-! ## `main.py` -/

/-- PDF text extraction (`pdf_extractor.extract_text_from_pdf`): `.error` is
the exception it raises (`FileNotFoundError` for a missing path, or a
wrapped extraction failure). -/
abbrev TextExtractor := String → Except String String

/-- The body of `run_pipeline`'s `try` block (`main.py` lines 43-96):
steps 1-6 in sequence; `.error` is an exception escaping a step.  The profile
validation (step 3), the interview validation, and the Supabase result
(step 5) are only logged in the source; they are bound here and discarded. -/
def pipeline_body (extractText : TextExtractor) (svc : Svc) (hasClient : Bool) (sink : Sink)
    (now name email cv_url dice_url : String) (push_supabase : Bool) : Except String Dict :=
  match extractText cv_url with
  | .error e => .error e
  | .ok cv_text =>
    match extractText dice_url with
    | .error e => .error e
    | .ok dice_text =>
      let profile_data := extract_candidate_profile svc cv_text dice_text
      let _is_valid := validate_profile profile_data
      match generate_interview_chat svc profile_data now with
      | .error e => .error e
      | .ok chat_data =>
        let _interview_ok := validate_interview_data chat_data
        let _supabase_result :=
          if push_supabase then
            insert_candidate_to_supabase hasClient sink profile_data chat_data cv_url dice_url
          else none
        .ok [("profile", .dict profile_data),
             ("interview", .dict chat_data),
             ("summary_notes", dgetD chat_data "summary_notes" (.str "")),
             ("memories", dgetD chat_data "memories" (.list [])),
             ("status", .str "success")]

/-- The error result of `run_pipeline` (`main.py` lines 100-107). -/
def pipeline_error_result (e : String) : Dict :=
  [("status", .str "error"),
   ("error", .str e),
   ("profile", .dict []),
   ("interview", .dict []),
   ("summary_notes", .str ""),
   ("memories", .list [])]

/-- `run_pipeline` (`main.py` lines 28-107): the `try` body, with the single
top-level `except Exception` producing the error-shaped result. -/
def run_pipeline (extractText : TextExtractor) (svc : Svc) (hasClient : Bool) (sink : Sink)
    (now name email cv_url dice_url : String) (push_supabase : Bool) : Dict :=
  match pipeline_body extractText svc hasClient sink now name email cv_url dice_url push_supabase with
  | .ok r => r
  | .error e => pipeline_error_result e

/-! ## Dictionary lemmas -/

theorem dget_dset (d : Dict) (k k' : String) (v : Val) :
    dget (dset d k v) k' = if k = k' then some v else dget d k' := by
  induction d with
  | nil => simp [dset, dget]
  | cons p rest ih =>
    obtain ⟨k0, v0⟩ := p
    by_cases hk : k0 = k
    · subst hk
      by_cases hk' : k0 = k'
      · subst hk'
        simp [dset, dget]
      · simp [dset, dget, hk']
    · by_cases hk' : k0 = k'
      · subst hk'
        have h2 : ¬ k = k0 := fun hh => hk hh.symm
        simp [dset, dget, hk, h2]
      · simp [dset, dget, hk, hk', ih]

theorem dmem_dset (d : Dict) (k k' : String) (v : Val) :
    dmem k' (dset d k v) = if k = k' then true else dmem k' d := by
  by_cases hk : k = k' <;> simp [dmem, dget_dset, hk]

/-! ## Normalizing the generation timestamp (for the idempotence claim) -/

/-- Replace the value of every `generated_at` entry by the empty string. -/
def scrub_meta_fields : List (String × Val) → List (String × Val)
  | [] => []
  | (k, v) :: rest => (k, if k = "generated_at" then Val.str "" else v) :: scrub_meta_fields rest

/-- Forget the generation timestamp inside a metadata value. -/
def scrub_meta_val : Val → Val
  | .dict fs => .dict (scrub_meta_fields fs)
  | v => v

/-- Apply `scrub_meta_val` to the value of every `metadata` entry: two
interview records equal after `scrubD` agree everywhere except possibly in
the generation timestamp inside `metadata`. -/
def scrubD : Dict → Dict
  | [] => []
  | (k, v) :: rest => (k, if k = "metadata" then scrub_meta_val v else v) :: scrubD rest

/-- `scrubD` on an interview value. -/
def scrub_val : Val → Val
  | .dict fs => .dict (scrubD fs)
  | v => v

theorem scrubD_dset (d : Dict) (k : String) (v : Val) :
    scrubD (dset d k v) =
      dset (scrubD d) k (if k = "metadata" then scrub_meta_val v else v) := by
  induction d with
  | nil => simp [dset, scrubD]
  | cons p rest ih =>
    obtain ⟨k0, v0⟩ := p
    by_cases hk : k0 = k
    · subst hk
      simp [dset, scrubD]
    · simp [dset, scrubD, hk, ih]

theorem dget_scrubD_ne (d : Dict) (k : String) (h : ¬ k = "metadata") :
    dget (scrubD d) k = dget d k := by
  induction d with
  | nil => rfl
  | cons p rest ih =>
    obtain ⟨k0, v0⟩ := p
    by_cases hk : k0 = k
    · subst hk
      have hm : ¬ k0 = "metadata" := h
      simp [scrubD, dget, hm]
    · simp [scrubD, dget, hk, ih]

/-- Scrubbing the attached interview metadata forgets the timestamp and
nothing else. -/
theorem scrub_interview_metadata (p : Dict) (n : String) :
    scrub_meta_val (interview_metadata p n) =
      .dict [("generated_at", .str ""),
             ("candidate_name", dgetD p "name" (.str "Candidate")),
             ("personality_type", dgetD p "personality_type" (.str "Unknown")),
             ("tone_profile", dgetD p "tone_profile" (.str "warm and curious")),
             ("version", .str "Anu v2 - Conversational Mentor")] := by
  simp [interview_metadata, scrub_meta_val, scrub_meta_fields]

theorem scrubD_default_interview (p : Dict) (n1 n2 : String) :
    scrubD (get_default_interview_data p n1) = scrubD (get_default_interview_data p n2) := by
  simp [get_default_interview_data, scrubD, scrub_meta_val, scrub_meta_fields]

/-- The synthesized interview depends on the clock only through the
`generated_at` timestamp inside `metadata`: scrubbing that timestamp makes
two runs with different clocks equal (including the error case). -/
theorem generate_interview_scrub (svc : Svc) (p : Dict) (n1 n2 : String) :
    (generate_interview_chat svc p n1).map scrubD
      = (generate_interview_chat svc p n2).map scrubD := by
  unfold generate_interview_chat
  cases hsk : pyJoin ", " (dgetD p "skills" (.list [])) with
  | none => rfl
  | some sj =>
    cases hcd : pyJoin ", " (dgetD p "cad_tools" (.list [])) with
    | none => rfl
    | some cj =>
      cases hpj : pyJoin ", " (dgetD p "projects" (.list [])) with
      | none => rfl
      | some pj =>
        cases hs : svc "gpt-4" (interview_messages p sj cj pj) (4/5) with
        | fail m =>
          simp only [hs]
          exact congrArg Except.ok (scrubD_default_interview p n1 n2)
        | okMalformed =>
          simp only [hs]
          exact congrArg Except.ok (scrubD_default_interview p n1 n2)
        | okNonDict =>
          simp only [hs]
          exact congrArg Except.ok (scrubD_default_interview p n1 n2)
        | okDict d =>
          simp only [hs]
          by_cases hmem : dmem "memories" d
          · by_cases hans : dmem "answers" d
            · by_cases hsum : dmem "summary_notes" d <;>
                simp [dmem_dset, hmem, hans, hsum, Except.map, scrubD_dset, scrub_interview_metadata]
            · by_cases hsum : dmem "summary_notes" d <;>
                simp [dmem_dset, hmem, hans, hsum, Except.map, scrubD_dset, scrub_interview_metadata]
          · by_cases hans : dmem "answers" d
            · by_cases hsum : dmem "summary_notes" d <;>
                simp [dmem_dset, hmem, hans, hsum, Except.map, scrubD_dset, scrub_interview_metadata]
            · by_cases hsum : dmem "summary_notes" d <;>
                simp [dmem_dset, hmem, hans, hsum, Except.map, scrubD_dset, scrub_interview_metadata]

/-- Whether `run_pipeline`'s `try` body ran to completion (steps 1-6 raised
no exception). -/
def pipeline_succeeded (extractText : TextExtractor) (svc : Svc) (hasClient : Bool) (sink : Sink)
    (now name email cv_url dice_url : String) (push_supabase : Bool) : Bool :=
  match pipeline_body extractText svc hasClient sink now name email cv_url dice_url push_supabase with
  | .ok _ => true
  | .error _ => false

/-- Any result the pipeline body completes with carries `status="success"`. -/
theorem pipeline_body_status (extractText : TextExtractor) (svc : Svc) (hasClient : Bool)
    (sink : Sink) (now name email cv_url dice_url : String) (push : Bool) (r : Dict)
    (h : pipeline_body extractText svc hasClient sink now name email cv_url dice_url push = .ok r) :
    dget r "status" = some (.str "success") := by
  simp only [pipeline_body] at h
  split at h
  · exact absurd h (by simp)
  · split at h
    · exact absurd h (by simp)
    · split at h
      · exact absurd h (by simp)
      · cases h
        simp [dget]

/-! ## Claims -/

/-- C1: for every input and every behaviour of the external collaborators,
`run_pipeline` never raises: when an exception escapes steps 1-6 it returns
the error-shaped result (`status="error"`, the exception message in `error`,
and empty `profile`, `interview`, `summary_notes`, `memories`); otherwise it
returns the body's result, which carries `status="success"`. -/
theorem run_pipeline_never_raises (extractText : TextExtractor) (svc : Svc) (hasClient : Bool)
    (sink : Sink) (now name email cv_url dice_url : String) (push : Bool) :
    (∃ e, pipeline_body extractText svc hasClient sink now name email cv_url dice_url push
            = .error e ∧
          run_pipeline extractText svc hasClient sink now name email cv_url dice_url push
            = [("status", .str "error"), ("error", .str e), ("profile", .dict []),
               ("interview", .dict []), ("summary_notes", .str ""), ("memories", .list [])])
    ∨ (∃ r, pipeline_body extractText svc hasClient sink now name email cv_url dice_url push
              = .ok r ∧
            run_pipeline extractText svc hasClient sink now name email cv_url dice_url push
              = r ∧
            dget r "status" = some (.str "success")) := by
  cases hb : pipeline_body extractText svc hasClient sink now name email cv_url dice_url push with
  | error e =>
    left
    exact ⟨e, rfl, by simp [run_pipeline, hb, pipeline_error_result]⟩
  | ok r =>
    right
    exact ⟨r, rfl, by simp [run_pipeline, hb],
      pipeline_body_status extractText svc hasClient sink now name email cv_url dice_url push r hb⟩

/-- C2: for any input texts, whenever the completion call fails or its output
does not parse as a JSON object, `extract_candidate_profile` returns the
canonical empty profile (all string fields empty, all sequence fields
empty); it never raises. -/
theorem extract_profile_default_on_failure (svc : Svc) (cv_text dice_text : String)
    (h : svc "gpt-4" (extraction_messages cv_text dice_text) (1/10) = .okMalformed
       ∨ svc "gpt-4" (extraction_messages cv_text dice_text) (1/10) = .okNonDict
       ∨ ∃ m, svc "gpt-4" (extraction_messages cv_text dice_text) (1/10) = .fail m) :
    extract_candidate_profile svc cv_text dice_text =
      [("name", .str ""), ("email", .str ""), ("skills", .list []), ("cad_tools", .list []),
       ("projects", .list []), ("personality_type", .str ""), ("tone_profile", .str "")] := by
  unfold extract_candidate_profile
  rcases h with h | h | ⟨m, h⟩ <;> rw [h] <;> rfl

/-- Witness: a service whose output is not valid JSON yields the canonical
empty profile. -/
theorem extract_profile_default_on_failure_witness :
    extract_candidate_profile (fun _ _ _ => .okMalformed) "some cv" "some dice" =
      [("name", .str ""), ("email", .str ""), ("skills", .list []), ("cad_tools", .list []),
       ("projects", .list []), ("personality_type", .str ""), ("tone_profile", .str "")] :=
  extract_profile_default_on_failure (fun _ _ _ => .okMalformed) "some cv" "some dice"
    (Or.inl rfl)

/-- C8: `validate_profile` is true iff all seven required profile keys are
present, and `validate_interview_data` is true iff all four required
interview keys are present; both are total Boolean functions of the input
dictionary alone, so value content is irrelevant and neither raises. -/
theorem validators_characterisation (p r : Dict) :
    (validate_profile p = true ↔
      (dmem "name" p = true ∧ dmem "email" p = true ∧ dmem "skills" p = true ∧
       dmem "cad_tools" p = true ∧ dmem "projects" p = true ∧
       dmem "personality_type" p = true ∧ dmem "tone_profile" p = true)) ∧
    (validate_interview_data r = true ↔
      (dmem "chat_log" r = true ∧ dmem "answers" r = true ∧
       dmem "memories" r = true ∧ dmem "summary_notes" r = true)) := by
  constructor <;>
    simp [validate_profile, validate_interview_data, profile_required_fields,
      interview_required_fields, List.all, and_assoc]

/-- The record `generate_interview_chat` returns when the completion service
answers with the valid JSON object `{}` (empty object) for the empty profile:
metadata is attached and `memories`/`answers`/`summary_notes` are backfilled,
but `chat_log` is not. -/
def interview_record_for_empty_object : Dict :=
  [("metadata", .dict
      [("generated_at", .str "2025-01-01T00:00:00"),
       ("candidate_name", .str "Candidate"),
       ("personality_type", .str "Unknown"),
       ("tone_profile", .str "warm and curious"),
       ("version", .str "Anu v2 - Conversational Mentor")]),
   ("memories", .list []),
   ("answers", .dict []),
   ("summary_notes", .str "Interview completed for Candidate. Manual review recommended.")]

/-- C3 (code bug): when the service returns the valid JSON object `{}`, the
synthesizer returns a record without the `chat_log` key — the source comment
says "Validate and ensure all required fields exist" but only backfills
`memories`, `answers` and `summary_notes` — so `validate_interview_data` of
the result is false, contradicting the claimed invariant. -/
theorem generate_interview_can_miss_chat_log :
    generate_interview_chat (fun _ _ _ => .okDict []) [] "2025-01-01T00:00:00"
      = .ok interview_record_for_empty_object ∧
    validate_interview_data interview_record_for_empty_object = false := by
  constructor
  · rfl
  · rfl

/-- C4 counterexample: a service answering the valid JSON object `{}` makes
the extractor return a profile with none of the seven keys, so
`validate_profile` of the extractor's output is false. -/
theorem extract_profile_can_miss_keys :
    extract_candidate_profile (fun _ _ _ => .okDict []) "cv" "dice" = [] ∧
    validate_profile (extract_candidate_profile (fun _ _ _ => .okDict []) "cv" "dice") = false := by
  constructor
  · rfl
  · rfl

/-- C4 (amended): when the completion call fails or its output does not parse
as a JSON object, the extractor returns the seven-key default profile and
`validate_profile` of the output is true; when the output parses as a JSON
object, that object is returned exactly as-is (so the seven keys are present
only when the service supplied them). -/
theorem extract_profile_validity (svc : Svc) (cv_text dice_text : String) :
    ((svc "gpt-4" (extraction_messages cv_text dice_text) (1/10) = .okMalformed
        ∨ svc "gpt-4" (extraction_messages cv_text dice_text) (1/10) = .okNonDict
        ∨ ∃ m, svc "gpt-4" (extraction_messages cv_text dice_text) (1/10) = .fail m) →
      extract_candidate_profile svc cv_text dice_text = get_default_profile ∧
      validate_profile (extract_candidate_profile svc cv_text dice_text) = true) ∧
    (∀ d, svc "gpt-4" (extraction_messages cv_text dice_text) (1/10) = .okDict d →
      extract_candidate_profile svc cv_text dice_text = d) := by
  constructor
  · intro h
    rcases h with h | h | ⟨m, h⟩ <;>
      · unfold extract_candidate_profile
        rw [h]
        exact ⟨rfl, rfl⟩
  · intro d h
    unfold extract_candidate_profile
    rw [h]

/-- Witness for the amended C4: the failure half at a failing service and the
parse-success half at a service returning a one-key object. -/
theorem extract_profile_validity_witness :
    validate_profile (extract_candidate_profile (fun _ _ _ => .fail "timeout") "cv" "dice") = true ∧
    extract_candidate_profile (fun _ _ _ => .okDict [("name", .str "X")]) "cv" "dice"
      = [("name", .str "X")] :=
  ⟨((extract_profile_validity (fun _ _ _ => .fail "timeout") "cv" "dice").1
      (Or.inr (Or.inr ⟨"timeout", rfl⟩))).2,
   (extract_profile_validity (fun _ _ _ => .okDict [("name", .str "X")]) "cv" "dice").2
     [("name", .str "X")] rfl⟩

/-- C5: for every profile whose three displayed sequences join without a
`TypeError`, when the synthesis call fails or its output does not parse as a
JSON object, `generate_interview_chat` returns exactly the canonical default
record: a two-turn greeting `chat_log`, the nine topic keys of `answers` all
mapped to the empty string, exactly one memory entry and a `summary_notes`
string both stating that generation failed, metadata carrying the explicit
error marker — and `validate_interview_data` of that record is true. -/
theorem generate_interview_default_on_failure (svc : Svc) (p : Dict) (now : String)
    (sj cj pj : String)
    (hsk : pyJoin ", " (dgetD p "skills" (.list [])) = some sj)
    (hcd : pyJoin ", " (dgetD p "cad_tools" (.list [])) = some cj)
    (hpj : pyJoin ", " (dgetD p "projects" (.list [])) = some pj)
    (hfail : svc "gpt-4" (interview_messages p sj cj pj) (4/5) = .okMalformed
           ∨ svc "gpt-4" (interview_messages p sj cj pj) (4/5) = .okNonDict
           ∨ ∃ m, svc "gpt-4" (interview_messages p sj cj pj) (4/5) = .fail m) :
    generate_interview_chat svc p now = .ok (get_default_interview_data p now) ∧
    dget (get_default_interview_data p now) "chat_log" = some (.list
      [.dict [("role", .str "Anu"),
              ("message", .str ("Hi " ++ pyStr (dgetD p "name" (.str "Candidate")) ++ "! I\x27m Anu from Kinara. So excited to chat with you today! ✨"))],
       .dict [("role", .str "Candidate"),
              ("message", .str "Hi Anu! Nice to meet you too.")]]) ∧
    dget (get_default_interview_data p now) "answers" = some (.dict
      [("location", .str ""), ("education_status", .str ""), ("internship_work", .str ""),
       ("cad_tools", .str ""), ("role_preference", .str ""), ("relocation", .str ""),
       ("commitment", .str ""), ("salary_expectation", .str ""),
       ("factory_visit_interest", .str "")]) ∧
    dget (get_default_interview_data p now) "memories" = some (.list
      [.str ("Interview generation failed for " ++ pyStr (dgetD p "name" (.str "Candidate")) ++ ". Manual review required.")]) ∧
    dget (get_default_interview_data p now) "summary_notes" = some
      (.str ("Interview generation failed for " ++ pyStr (dgetD p "name" (.str "Candidate")) ++ ". Manual review required.")) ∧
    dget (get_default_interview_data p now) "metadata" = some (.dict
      [("generated_at", .str now),
       ("candidate_name", dgetD p "name" (.str "Candidate")),
       ("error", .str "Interview generation failed"),
       ("version", .str "Anu v2 - Fallback")]) ∧
    validate_interview_data (get_default_interview_data p now) = true := by
  refine ⟨?_, rfl, rfl, rfl, rfl, rfl, rfl⟩
  unfold generate_interview_chat
  simp only [hsk, hcd, hpj]
  rcases hfail with h | h | ⟨m, h⟩ <;> simp only [h]

/-- Witness: the empty profile and a service that raises. -/
theorem generate_interview_default_on_failure_witness :
    generate_interview_chat (fun _ _ _ => .fail "rate limit") [] "2025-01-01T00:00:00"
      = .ok (get_default_interview_data [] "2025-01-01T00:00:00") ∧
    validate_interview_data (get_default_interview_data [] "2025-01-01T00:00:00") = true := by
  have h := generate_interview_default_on_failure (fun _ _ _ => .fail "rate limit") []
    "2025-01-01T00:00:00" "" "" "" rfl rfl rfl (Or.inr (Or.inr ⟨"rate limit", rfl⟩))
  exact ⟨h.1, h.2.2.2.2.2.2⟩

/-- C6 counterexample: after a failed extraction (steps 1-5 still complete),
the profile's `personality_type` is the empty string, and the row handed to
the persistence sink then has no `personality_type` key at all — the
flattened projection contains the optional fields only when they are
non-empty. -/
theorem insert_projection_missing_optional_key :
    (build_insert_data
        (extract_candidate_profile (fun _ _ _ => .fail "service down") "cv text" "dice text")
        (get_default_interview_data
          (extract_candidate_profile (fun _ _ _ => .fail "service down") "cv text" "dice text")
          "2025-01-01T00:00:00")
        "cv.pdf" "dice.pdf").map (fun data => dmem "personality_type" data) = some false := by
  rfl

/-- C6 (amended): whenever the skills join raises no `TypeError`, the row the
orchestrator hands the sink is built by `build_insert_data`: it always
contains `name` and `email` drawn from the profile, both locators, the
comma-joined skills and `status="pending"`, while `personality_type`,
`tone_profile` (from the profile) and `summary_notes`, `memories` (from the
interview record) are included exactly when the corresponding source value is
non-empty; `insert_candidate_to_supabase` passes exactly this row to the sink
when a client is available. -/
theorem insert_projection_shape (profile_data chat_data : Dict) (cv_url dice_url : String)
    (sj : String) (hsk : pyJoin ", " (dgetD profile_data "skills" (.list [])) = some sj) :
    ∃ data, build_insert_data profile_data chat_data cv_url dice_url = some data ∧
      dget data "name" = some (dgetD profile_data "name" (.str "")) ∧
      dget data "email" = some (dgetD profile_data "email" (.str "")) ∧
      dget data "cv_url" = some (.str cv_url) ∧
      dget data "dice_url" = some (.str dice_url) ∧
      dget data "skills" = some (.str sj) ∧
      dget data "status" = some (.str "pending") ∧
      dget data "personality_type" =
        (if truthy (dgetD profile_data "personality_type" .null)
         then some (dgetD profile_data "personality_type" (.str "")) else none) ∧
      dget data "tone_profile" =
        (if truthy (dgetD profile_data "tone_profile" .null)
         then some (dgetD profile_data "tone_profile" (.str "")) else none) ∧
      dget data "summary_notes" =
        (if truthy (dgetD chat_data "summary_notes" .null)
         then some (dgetD chat_data "summary_notes" (.str "")) else none) ∧
      dget data "memories" =
        (if truthy (dgetD chat_data "memories" .null)
         then some (dgetD chat_data "memories" (.list [])) else none) ∧
      (∀ (hasClient : Bool) (sink : Sink),
        insert_candidate_to_supabase hasClient sink profile_data chat_data cv_url dice_url =
          if hasClient then
            match sink data with
            | .error _ => none
            | .ok v => some v
          else none) := by
  unfold build_insert_data
  simp only [hsk]
  refine ⟨_, rfl, ?_⟩
  by_cases h1 : truthy (dgetD profile_data "personality_type" .null) <;>
    by_cases h2 : truthy (dgetD profile_data "tone_profile" .null) <;>
      by_cases h3 : truthy (dgetD chat_data "summary_notes" .null) <;>
        by_cases h4 : truthy (dgetD chat_data "memories" .null) <;>
          simp [h1, h2, h3, h4, dget_dset, dget, insert_candidate_to_supabase,
            build_insert_data, hsk]

/-- Witness for the amended C6: the default profile and default interview
record, with a client available and a sink that accepts the row. -/
theorem insert_projection_shape_witness :
    ∃ data, build_insert_data get_default_profile
        (get_default_interview_data get_default_profile "2025-01-01T00:00:00")
        "cv.pdf" "dice.pdf" = some data ∧
      dget data "status" = some (.str "pending") := by
  obtain ⟨data, hdata, hrest⟩ := insert_projection_shape get_default_profile
    (get_default_interview_data get_default_profile "2025-01-01T00:00:00")
    "cv.pdf" "dice.pdf" "" rfl
  exact ⟨data, hdata, hrest.2.2.2.2.2.1⟩

/-- C7: the pipeline's returned result does not depend on the persistence
sink at all — a sink that raises, returns no data, or has no client yields
the same result dictionary as any succeeding sink — and whenever steps 1-5
complete, that result carries `status="success"`. -/
theorem run_pipeline_ignores_sink_failure (extractText : TextExtractor) (svc : Svc)
    (hc1 hc2 : Bool) (s1 s2 : Sink) (now name email cv_url dice_url : String) (push : Bool) :
    run_pipeline extractText svc hc1 s1 now name email cv_url dice_url push =
      run_pipeline extractText svc hc2 s2 now name email cv_url dice_url push ∧
    (pipeline_succeeded extractText svc hc1 s1 now name email cv_url dice_url push = true →
      dget (run_pipeline extractText svc hc1 s1 now name email cv_url dice_url push) "status" =
        some (.str "success")) := by
  constructor
  · rfl
  · intro h
    unfold pipeline_succeeded at h
    cases hb : pipeline_body extractText svc hc1 s1 now name email cv_url dice_url push with
    | error e => rw [hb] at h; exact absurd h (by simp)
    | ok r =>
      have : run_pipeline extractText svc hc1 s1 now name email cv_url dice_url push = r := by
        simp [run_pipeline, hb]
      rw [this]
      exact pipeline_body_status extractText svc hc1 s1 now name email cv_url dice_url push r hb

/-- Witness: a raising sink versus an accepting sink, on an otherwise
successful run. -/
theorem run_pipeline_ignores_sink_failure_witness :
    run_pipeline (fun _ => .ok "text") (fun _ _ _ => .fail "svc down") true
        (fun _ => .error "sink down") "2025-01-01T00:00:00" "N" "n@x.com" "cv.pdf" "dice.pdf" true =
      run_pipeline (fun _ => .ok "text") (fun _ _ _ => .fail "svc down") true
        (fun _ => .ok .null) "2025-01-01T00:00:00" "N" "n@x.com" "cv.pdf" "dice.pdf" true ∧
    dget (run_pipeline (fun _ => .ok "text") (fun _ _ _ => .fail "svc down") true
        (fun _ => .error "sink down") "2025-01-01T00:00:00" "N" "n@x.com" "cv.pdf" "dice.pdf" true)
      "status" = some (.str "success") := by
  have h := run_pipeline_ignores_sink_failure (fun _ => .ok "text") (fun _ _ _ => .fail "svc down")
    true true (fun _ => .error "sink down") (fun _ => .ok .null)
    "2025-01-01T00:00:00" "N" "n@x.com" "cv.pdf" "dice.pdf" true
  exact ⟨h.1, h.2 rfl⟩

/-- C9: an invalid profile does not halt the pipeline — when both texts
extract, the extracted profile fails `validate_profile`, and interview
synthesis completes, the orchestrator still assembles the success result
from that very profile. -/
theorem invalid_profile_does_not_halt (extractText : TextExtractor) (svc : Svc)
    (hasClient : Bool) (sink : Sink) (now name email cv_url dice_url : String) (push : Bool)
    (cv_text dice_text : String) (chat_data : Dict)
    (hcv : extractText cv_url = .ok cv_text)
    (hdice : extractText dice_url = .ok dice_text)
    (hinvalid : validate_profile (extract_candidate_profile svc cv_text dice_text) = false)
    (hchat : generate_interview_chat svc (extract_candidate_profile svc cv_text dice_text) now
      = .ok chat_data) :
    run_pipeline extractText svc hasClient sink now name email cv_url dice_url push =
      [("profile", .dict (extract_candidate_profile svc cv_text dice_text)),
       ("interview", .dict chat_data),
       ("summary_notes", dgetD chat_data "summary_notes" (.str "")),
       ("memories", dgetD chat_data "memories" (.list [])),
       ("status", .str "success")] := by
  unfold run_pipeline pipeline_body
  simp only [hcv, hdice, hchat]

/-- Witness: a service answering `{}` produces a profile with no keys, which
is invalid, yet the run succeeds. -/
theorem invalid_profile_does_not_halt_witness :
    run_pipeline (fun _ => .ok "") (fun _ _ _ => .okDict []) false (fun _ => .ok .null)
        "2025-01-01T00:00:00" "N" "n@x.com" "cv.pdf" "dice.pdf" false =
      [("profile", .dict []),
       ("interview", .dict interview_record_for_empty_object),
       ("summary_notes", .str "Interview completed for Candidate. Manual review recommended."),
       ("memories", .list []),
       ("status", .str "success")] := by
  have h := invalid_profile_does_not_halt (fun _ => .ok "") (fun _ _ _ => .okDict [])
    false (fun _ => .ok .null) "2025-01-01T00:00:00" "N" "n@x.com" "cv.pdf" "dice.pdf" false
    "" "" interview_record_for_empty_object rfl rfl rfl rfl
  exact h

/-- C10: two runs with identical inputs and an identical deterministic
completion service differ at most in the `generated_at` timestamp inside the
interview's `metadata`: the `profile`, `status`, `summary_notes` and
`memories` fields of the two results are equal, and the `interview` fields
are equal after scrubbing that timestamp. -/
theorem run_pipeline_deterministic_up_to_timestamp (extractText : TextExtractor) (svc : Svc)
    (hasClient : Bool) (sink : Sink) (n1 n2 name email cv_url dice_url : String) (push : Bool) :
    dget (run_pipeline extractText svc hasClient sink n1 name email cv_url dice_url push) "profile"
      = dget (run_pipeline extractText svc hasClient sink n2 name email cv_url dice_url push) "profile" ∧
    dget (run_pipeline extractText svc hasClient sink n1 name email cv_url dice_url push) "status"
      = dget (run_pipeline extractText svc hasClient sink n2 name email cv_url dice_url push) "status" ∧
    dget (run_pipeline extractText svc hasClient sink n1 name email cv_url dice_url push) "summary_notes"
      = dget (run_pipeline extractText svc hasClient sink n2 name email cv_url dice_url push) "summary_notes" ∧
    dget (run_pipeline extractText svc hasClient sink n1 name email cv_url dice_url push) "memories"
      = dget (run_pipeline extractText svc hasClient sink n2 name email cv_url dice_url push) "memories" ∧
    (dget (run_pipeline extractText svc hasClient sink n1 name email cv_url dice_url push) "interview").map scrub_val
      = (dget (run_pipeline extractText svc hasClient sink n2 name email cv_url dice_url push) "interview").map scrub_val := by
  simp only [run_pipeline, pipeline_body]
  cases hcv : extractText cv_url with
  | error e => simp [hcv]
  | ok cv_text =>
    simp only [hcv]
    cases hdice : extractText dice_url with
    | error e => simp [hdice]
    | ok dice_text =>
      simp only [hdice]
      have hscrub := generate_interview_scrub svc
        (extract_candidate_profile svc cv_text dice_text) n1 n2
      cases hg1 : generate_interview_chat svc (extract_candidate_profile svc cv_text dice_text) n1 with
      | error e1 =>
        cases hg2 : generate_interview_chat svc (extract_candidate_profile svc cv_text dice_text) n2 with
        | error e2 =>
          rw [hg1, hg2] at hscrub
          simp only [Except.map, Except.error.injEq] at hscrub
          subst hscrub
          simp [hg1, hg2]
        | ok c2 =>
          rw [hg1, hg2] at hscrub
          exact absurd hscrub (by simp [Except.map])
      | ok c1 =>
        cases hg2 : generate_interview_chat svc (extract_candidate_profile svc cv_text dice_text) n2 with
        | error e2 =>
          rw [hg1, hg2] at hscrub
          exact absurd hscrub (by simp [Except.map])
        | ok c2 =>
          rw [hg1, hg2] at hscrub
          simp only [Except.map, Except.ok.injEq] at hscrub
          have hsum : dget c1 "summary_notes" = dget c2 "summary_notes" := by
            rw [← dget_scrubD_ne c1 "summary_notes" (by decide),
                ← dget_scrubD_ne c2 "summary_notes" (by decide), hscrub]
          have hmems : dget c1 "memories" = dget c2 "memories" := by
            rw [← dget_scrubD_ne c1 "memories" (by decide),
                ← dget_scrubD_ne c2 "memories" (by decide), hscrub]
          simp only [hg1, hg2]
          refine ⟨by simp [dget], by simp [dget], ?_, ?_, ?_⟩
          · simp [dget, dgetD, hsum]
          · simp [dget, dgetD, hmems]
          · simp [dget, scrub_val, hscrub]
